import Mathlib

/-!
Shallow embedding of the enhanced anomaly-detection engine from
server/webrtc_hub/detector.py.

Modelling conventions:
* Python floats are modelled as exact rationals.
* Python dicts keyed by strings are modelled as total functions from
  String with the dict-absent case folded into the default value the
  code supplies on access (the code always accesses through get with a
  default, or after ensuring the key exists).
* The external statistical libraries (pyod ECOD, statsforecast AutoARIMA,
  numpy std and percentile) are numerical black boxes; their outputs are
  passed in as oracle parameters.  An oracle value of none models the
  library raising inside the try block, which the code catches and turns
  into "no findings this cycle".  Everything the repository itself
  computes (buffers, thresholds, severities, confidences, ensemble,
  health, peripheral state machine) is embedded directly.
* collections.deque with maxlen is modelled as a list where an append at
  capacity drops the eldest element.
-/

/-- Configuration constant WINDOW_SIZE = 60. -/
def WINDOW_SIZE : ℕ := 60

/-- Configuration constant MIN_SAMPLES_ECOD = 20. -/
def MIN_SAMPLES_ECOD : ℕ := 20

/-- Configuration constant MIN_SAMPLES_ARIMA = 30. -/
def MIN_SAMPLES_ARIMA : ℕ := 30

/-- Configuration constant BASE_CONTAMINATION = 0.05. -/
def BASE_CONTAMINATION : ℚ := 5/100

/-- Configuration constant ARIMA_RESIDUAL_K = 2.5. -/
def ARIMA_RESIDUAL_K : ℚ := 5/2

/-- Configuration constant ECOD_WEIGHT = 0.6. -/
def ECOD_WEIGHT : ℚ := 6/10

/-- Configuration constant ARIMA_WEIGHT = 0.4. -/
def ARIMA_WEIGHT : ℚ := 4/10

/-- Configuration constant PERIPHERAL_FAILURE_THRESHOLD = 3. -/
def PERIPHERAL_FAILURE_THRESHOLD : ℕ := 3

/-- Append to a deque with the given maxlen: when at (or beyond)
capacity, eldest elements are dropped from the left. -/
def dequeAppendN {α : Type} (maxlen : ℕ) (xs : List α) (x : α) : List α :=
  if xs.length < maxlen then xs ++ [x]
  else (xs.drop (xs.length + 1 - maxlen)) ++ [x]

/-- Pointwise update of a String-keyed map modelled as a function. -/
def upd {α : Type} (f : String → α) (k : String) (v : α) : String → α :=
  fun x => if x = k then v else f x

/-- Pointwise update of a doubly String-keyed map. -/
def upd2 {α : Type} (f : String → String → α) (k1 k2 : String) (v : α) :
    String → String → α :=
  upd f k1 (upd (f k1) k2 v)

/-- Mean of a list of rationals (np.mean; callers guard non-emptiness). -/
def meanQ (xs : List ℚ) : ℚ := xs.sum / xs.length

/-- Python int() applied to a float: truncation toward zero. -/
def pyInt (q : ℚ) : ℤ := if 0 ≤ q then ⌊q⌋ else ⌈q⌉

/-- Python round-half-to-even of a rational to an integer. -/
def pyRoundHalfEven (q : ℚ) : ℤ :=
  if q - ⌊q⌋ < 1/2 then ⌊q⌋
  else if 1/2 < q - ⌊q⌋ then ⌊q⌋ + 1
  else if ⌊q⌋ % 2 = 0 then ⌊q⌋ else ⌊q⌋ + 1

/-- Python round(x, 2). -/
def round2 (q : ℚ) : ℚ := (pyRoundHalfEven (q * 100) : ℚ) / 100

/-- The Network sub-dict of a sample; both fields optional. -/
structure NetworkData where
  sent : Option ℚ := none
  recv : Option ℚ := none

/-- A log entry: BodyType and KeyValues (device to status, in insertion
order as Python dicts preserve it). -/
structure LogEntry where
  bodyType : String := ""
  keyValues : List (String × String) := []

/-- An input sample dict; every field the code reads with a default is
optional here, absent keys are none. -/
structure Sample where
  agentIdV : Option String := none
  timestampV : Option String := none
  cpuV : Option ℚ := none
  memoryV : Option ℚ := none
  diskIOV : Option ℚ := none
  network : Option NetworkData := none
  logs : List LogEntry := []

/-- MetricBuffer: six parallel deques with maxlen WINDOW_SIZE. -/
structure MetricBuffer where
  cpu : List ℚ := []
  memory : List ℚ := []
  disk_io : List ℚ := []
  network_sent : List ℚ := []
  network_recv : List ℚ := []
  timestamps : List String := []

/-- PeripheralState: per-device failure counters and last seen status. -/
structure PeripheralState where
  failure_counts : String → ℕ := fun _ => 0
  last_states : String → Option String := fun _ => none

/-- A single anomaly finding (AnomalyResult dataclass).  The details
field is a formatted display string and is not modelled. -/
structure HorizonPoint where
  minutes : ℕ
  value : ℚ
  severity : String

/-- AnomalyResult dataclass (display-only details string omitted). -/
structure AnomalyResult where
  engine : String
  metric : String
  value : ℚ
  score : ℚ := 0
  threshold : ℚ := 0
  forecast : Option ℚ := none
  residual : Option ℚ := none
  severity : String := "normal"
  confidence : ℚ := 0
  forecast_horizon : Option (List HorizonPoint) := none

/-- DetectionResult dataclass. -/
structure DetectionResult where
  agent_id : String
  timestamp : String
  detections : List AnomalyResult
  health_score : ℤ
  raw_metrics : List (String × ℚ)
  ensemble_score : ℚ

/-- The whole mutable state of EnhancedAnomalyDetector.  The per-agent
dicts are total functions whose defaults coincide with the state
_ensure_buffer installs on first contact, so explicit creation is not
tracked; ecodHasModel and arimaHasModel record cache occupancy of
ecod_models and arima_models (the cached model objects themselves are
library state, consulted only through the oracles). -/
structure DetectorState where
  buffers : String → MetricBuffer := fun _ => {}
  peripheral_states : String → PeripheralState := fun _ => {}
  ecodHasModel : String → Bool := fun _ => false
  arimaHasModel : String → String → Bool := fun _ _ => false
  arima_residuals : String → String → List ℚ := fun _ _ => []
  score_history : String → List ℚ := fun _ => []

/-- The freshly constructed detector. -/
def initState : DetectorState := {}

/-- Numerical outputs of the fitted ECOD model for one cycle: raw
decision score of the latest row, its min-max normalized value over the
window scores, the outlier verdict, and np.percentile(column, 95) per
metric column. -/
structure EcodOut where
  score : ℚ
  normScore : ℚ
  isOutlier : Bool
  p95 : String → ℚ

/-- Numerical outputs of the statistical libraries for one detect call:
the ECOD results (none when the library raises or ECOD is not run), the
AutoARIMA forecast path per metric (step index to forecast value; none
when fit or predict raises), and np.std. -/
structure LibOracles where
  ecod : Option EcodOut := none
  arima : String → Option (ℕ → ℚ) := fun _ => none
  std : List ℚ → ℚ := fun _ => 0

/-- _update_buffer: append the sample fields (with their Python get
defaults) to all six channels. -/
def updateBuffer (st : DetectorState) (agentId : String) (data : Sample) :
    DetectorState :=
  let buf := st.buffers agentId
  let buf :=
    { buf with
      cpu := dequeAppendN WINDOW_SIZE buf.cpu (data.cpuV.getD 0)
      memory := dequeAppendN WINDOW_SIZE buf.memory (data.memoryV.getD 0)
      disk_io := dequeAppendN WINDOW_SIZE buf.disk_io (data.diskIOV.getD 0)
      network_sent := dequeAppendN WINDOW_SIZE buf.network_sent
        ((data.network.getD {}).sent.getD 0)
      network_recv := dequeAppendN WINDOW_SIZE buf.network_recv
        ((data.network.getD {}).recv.getD 0)
      timestamps := dequeAppendN WINDOW_SIZE buf.timestamps
        (data.timestampV.getD "") }
  { st with buffers := upd st.buffers agentId buf }

/-- _get_dynamic_contamination. -/
def dynContamination (st : DetectorState) (agentId : String) : ℚ :=
  let h := st.score_history agentId
  if h.length < 10 then BASE_CONTAMINATION
  else
    let highScores := (h.filter (fun s => 7/10 < s)).length
    let ratio : ℚ := (highScores : ℚ) / (h.length : ℚ)
    if 3/10 < ratio then max (1/100) (BASE_CONTAMINATION - 2/100)
    else if ratio < 1/20 then min (1/10) (BASE_CONTAMINATION + 2/100)
    else BASE_CONTAMINATION

/-- _run_multivariate_ecod: guard on window size, train (cache) the
model, record the normalized score in the history, emit the multivariate
finding and the three per-metric breakdown findings. -/
def runMultivariateEcod (st : DetectorState) (agentId : String)
    (oracle : Option EcodOut) : DetectorState × List AnomalyResult :=
  let buf := st.buffers agentId
  if buf.cpu.length < MIN_SAMPLES_ECOD then (st, [])
  else
    match oracle with
    | none => (st, [])
    | some o =>
      let contamination := dynContamination st agentId
      let st :=
        { st with
          ecodHasModel := upd st.ecodHasModel agentId true
          score_history := upd st.score_history agentId
            (dequeAppendN 100 (st.score_history agentId) o.normScore) }
      let sc : String × ℚ :=
        if o.isOutlier then
          if 9/10 < o.normScore then ("critical", 9/10)
          else if 7/10 < o.normScore then ("warning", 7/10)
          else ("warning", 1/2)
        else ("normal", 1 - o.normScore)
      let multi : AnomalyResult :=
        { engine := "ecod", metric := "Multivariate", value := o.score,
          score := o.normScore, threshold := contamination,
          severity := sc.1, confidence := sc.2 }
      let mkBreakdown : String × List ℚ → AnomalyResult := fun p =>
        let v := p.2.getLastD 0
        let percentile : ℚ := (p.2.countP (fun x => x < v) : ℚ) / (p.2.length : ℚ)
        let metricScore := |percentile - 1/2| * 2
        { engine := "ecod", metric := p.1, value := v, score := metricScore,
          threshold := o.p95 p.1,
          severity := if 4/5 < metricScore then "warning" else "normal",
          confidence := sc.2 * (8/10) }
      (st, multi ::
        ([("CPU", buf.cpu), ("Memory", buf.memory), ("DiskIO", buf.disk_io)].map
          mkBreakdown))

/-- The retrain decision in _run_cached_arima: retrain when no model is
cached, or when the series length is a multiple of 100. -/
def needRetrain (hasModel : Bool) (n : ℕ) : Bool :=
  if ¬ hasModel then true else n % 100 = 0

/-- The body of _run_cached_arima once the length guard passed and the
library produced forecasts: fit or update the cached model, compute the
one-step residual, append it to the residual history, derive adaptive
threshold, score, severity, confidence, and the three-point forecast
horizon. -/
def runCachedArimaCore (st : DetectorState) (agentId metricName : String)
    (values : List ℚ) (allForecasts : ℕ → ℚ) (std : List ℚ → ℚ) :
    DetectorState × AnomalyResult :=
  let _retrained := needRetrain (st.arimaHasModel agentId metricName)
    values.length
  let st := { st with
    arimaHasModel := upd2 st.arimaHasModel agentId metricName true }
  let forecastValue := allForecasts 0
  let actualValue := values.getLastD 0
  let residual := |actualValue - forecastValue|
  let residualHistory := dequeAppendN WINDOW_SIZE
    (st.arima_residuals agentId metricName) residual
  let st := { st with
    arima_residuals := upd2 st.arima_residuals agentId metricName
      residualHistory }
  let threshold :=
    if 5 < residualHistory.length then
      max (ARIMA_RESIDUAL_K * std residualHistory) (1/10)
    else if 0 < residualHistory.length then meanQ residualHistory * 2
    else 1
  let score := residual / max threshold (1/100)
  let sc : String × ℚ :=
    if threshold * (3/2) < residual then ("critical", min (95/100) (score/2))
    else if threshold < residual then ("warning", min (8/10) (score/2))
    else ("normal", 1 - min (9/10) score)
  let mkHorizon : ℕ × ℕ → HorizonPoint := fun p =>
    let predValue := allForecasts (p.1 - 1)
    let warningThreshold : ℚ := if metricName = "CPU" then 80 else 85
    let criticalThreshold : ℚ := if metricName = "CPU" then 90 else 95
    { minutes := p.2, value := predValue,
      severity :=
        if criticalThreshold ≤ predValue then "critical"
        else if warningThreshold ≤ predValue then "warning"
        else "normal" }
  (st,
    { engine := "arima", metric := metricName, value := actualValue,
      score := score, threshold := threshold,
      forecast := some forecastValue, residual := some residual,
      severity := sc.1, confidence := sc.2,
      forecast_horizon := some ([(360, 30), (720, 60), (1440, 120)].map
        mkHorizon) })

/-- _run_cached_arima: length guard, library failure guard, then the
core computation. -/
def runCachedArima (st : DetectorState) (agentId metricName : String)
    (values : List ℚ) (oracle : Option (ℕ → ℚ)) (std : List ℚ → ℚ) :
    DetectorState × Option AnomalyResult :=
  if values.length < MIN_SAMPLES_ARIMA then (st, none)
  else
    match oracle with
    | none => (st, none)
    | some allForecasts =>
      let r := runCachedArimaCore st agentId metricName values allForecasts std
      (r.1, some r.2)

/-- The peripheral finding built when consecutive failures reach the
threshold. -/
def mkPeripheralFinding (device : String) (count : ℕ) : AnomalyResult :=
  { engine := "peripheral", metric := device, value := (count : ℚ),
    score := min 1 ((count : ℚ) / 10),
    threshold := (PERIPHERAL_FAILURE_THRESHOLD : ℚ),
    severity := if 5 ≤ count then "critical" else "warning",
    confidence := 95/100 }

/-- One (device, status) event of the peripheral state machine. -/
def periphEvent (state : PeripheralState) (device status : String) :
    PeripheralState × List AnomalyResult :=
  let state := { state with last_states := upd state.last_states device (some status) }
  if status = "실패" then
    let c := state.failure_counts device + 1
    let state := { state with failure_counts := upd state.failure_counts device c }
    if PERIPHERAL_FAILURE_THRESHOLD ≤ c then (state, [mkPeripheralFinding device c])
    else (state, [])
  else if status = "연결" then
    ({ state with failure_counts := upd state.failure_counts device 0 }, [])
  else (state, [])

/-- Process the KeyValues of one peripheral-check log entry in order. -/
def processKeyValues (state : PeripheralState) (kvs : List (String × String)) :
    PeripheralState × List AnomalyResult :=
  kvs.foldl
    (fun acc kv =>
      let r := periphEvent acc.1 kv.1 kv.2
      (r.1, acc.2 ++ r.2))
    (state, [])

/-- Process the Logs list in order, consuming only peripheral-check
entries. -/
def processLogs (state : PeripheralState) (logs : List LogEntry) :
    PeripheralState × List AnomalyResult :=
  logs.foldl
    (fun acc le =>
      if le.bodyType = "주변장치 체크" then
        let r := processKeyValues acc.1 le.keyValues
        (r.1, acc.2 ++ r.2)
      else acc)
    (state, [])

/-- _check_peripherals. -/
def checkPeripherals (st : DetectorState) (agentId : String) (data : Sample) :
    DetectorState × List AnomalyResult :=
  let r := processLogs (st.peripheral_states agentId) data.logs
  ({ st with peripheral_states := upd st.peripheral_states agentId r.1 }, r.2)

/-- The confidence-weighted scores of the ecod findings, as read by
_calculate_ensemble_score (weighted 0.6/0.4 when both engines are
present, the single component when only one is, 0 otherwise). -/
def ecodScoresOf (detections : List AnomalyResult) : List ℚ :=
  (detections.filter (fun d => d.engine = "ecod")).map
    (fun d => d.score * d.confidence)

/-- The confidence-weighted scores of the arima findings. -/
def arimaScoresOf (detections : List AnomalyResult) : List ℚ :=
  (detections.filter (fun d => d.engine = "arima")).map
    (fun d => d.score * d.confidence)

/-- _calculate_ensemble_score continued (see the score lists above). -/
def calcEnsembleScore (detections : List AnomalyResult) : ℚ × String :=
  let ecodScores := ecodScoresOf detections
  let arimaScores := arimaScoresOf detections
  let ecodAvg := if ecodScores.isEmpty then 0 else meanQ ecodScores
  let arimaAvg := if arimaScores.isEmpty then 0 else meanQ arimaScores
  let ensemble :=
    if ¬ ecodScores.isEmpty ∧ ¬ arimaScores.isEmpty then
      ECOD_WEIGHT * ecodAvg + ARIMA_WEIGHT * arimaAvg
    else if ¬ ecodScores.isEmpty then ecodAvg
    else if ¬ arimaScores.isEmpty then arimaAvg
    else 0
  let severity :=
    if 8/10 < ensemble then "critical"
    else if 5/10 < ensemble then "warning"
    else "normal"
  (ensemble, severity)

/-- Deduction one finding causes to the health score. -/
def healthDeduction (d : AnomalyResult) : ℤ :=
  if d.severity = "critical" then pyInt (20 * d.confidence)
  else if d.severity = "warning" then pyInt (10 * d.confidence)
  else 0

/-- Health accounting of detect: start at 100, deduct per finding,
clamp to the 0..100 range. -/
def computeHealth (detections : List AnomalyResult) : ℤ :=
  max 0 (min 100 (detections.foldl (fun h d => h - healthDeduction d) 100))

/-- The ensemble finding appended when both engines reported. -/
def ensembleFinding (ensembleScore : ℚ) (ensembleSeverity : String) :
    AnomalyResult :=
  { engine := "ensemble", metric := "Combined", value := ensembleScore,
    score := ensembleScore, threshold := 1/2, severity := ensembleSeverity,
    confidence := if 7/10 < ensembleScore then 9/10 else 7/10 }

/-- Steps 4 to 6 of detect: ensemble score, conditional ensemble
finding, health score, result assembly. -/
def finalizeResult (agentId timestamp : String)
    (rawMetrics : List (String × ℚ)) (pre : List AnomalyResult) :
    DetectionResult :=
  let es := calcEnsembleScore pre
  let ecodCount := pre.countP (fun d => d.engine = "ecod")
  let arimaCount := pre.countP (fun d => d.engine = "arima")
  let detections :=
    if 0 < ecodCount ∧ 0 < arimaCount then pre ++ [ensembleFinding es.1 es.2]
    else pre
  { agent_id := agentId, timestamp := timestamp, detections := detections,
    health_score := computeHealth detections, raw_metrics := rawMetrics,
    ensemble_score := es.1 }

/-- The raw_metrics captured directly from the sample with the Python
get defaults. -/
def rawMetricsOf (data : Sample) : List (String × ℚ) :=
  [("CPU", data.cpuV.getD 0), ("Memory", data.memoryV.getD 0),
   ("DiskIO", data.diskIOV.getD 0),
   ("NetworkSent", (data.network.getD {}).sent.getD 0),
   ("NetworkRecv", (data.network.getD {}).recv.getD 0)]

/-- Steps 1 to 3 of detect: buffer update, multivariate ECOD per the
runEcod flag, cached ARIMA for CPU then Memory per the runArima flag,
peripheral monitoring; yields the updated state and the findings list
before ensemble processing. -/
def detectPre (st : DetectorState) (data : Sample) (o : LibOracles)
    (runEcod runArima : Bool) : DetectorState × List AnomalyResult :=
  let agentId := data.agentIdV.getD "unknown"
  let st := updateBuffer st agentId data
  let buf := st.buffers agentId
  let er := if runEcod then runMultivariateEcod st agentId o.ecod else (st, [])
  let st := er.1
  let ar1 :=
    if runArima then runCachedArima st agentId "CPU" buf.cpu (o.arima "CPU") o.std
    else (st, none)
  let st := ar1.1
  let ar2 :=
    if runArima then
      runCachedArima st agentId "Memory" buf.memory (o.arima "Memory") o.std
    else (st, none)
  let st := ar2.1
  let pr := checkPeripherals st agentId data
  (pr.1, er.2 ++ (ar1.2.toList ++ ar2.2.toList) ++ pr.2)

/-- The detect orchestrator: defaults for absent fields, the detector
pipeline, and result finalization. -/
def detect (st : DetectorState) (data : Sample) (o : LibOracles)
    (runEcod : Bool := true) (runArima : Bool := true) :
    DetectorState × DetectionResult :=
  let pr := detectPre st data o runEcod runArima
  (pr.1, finalizeResult (data.agentIdV.getD "unknown") (data.timestampV.getD "")
    (rawMetricsOf data) pr.2)

/-- Folding a whole stream of detect calls from the fresh detector. -/
def runDetector (inputs : List (Sample × LibOracles × Bool × Bool)) :
    DetectorState :=
  inputs.foldl (fun st i => (detect st i.1 i.2.1 i.2.2.1 i.2.2.2).1) initState

/-- Result shape of batch_arima_forecast.  The Python function returns a
dict; optional fields model keys that are present only on some paths
(error only on the short-series path, the current values only on the
full path). -/
structure BatchResult where
  cpu : List HorizonPoint
  memory : List HorizonPoint
  error : Option String
  current_cpu : Option ℚ
  current_memory : Option ℚ

/-- batch_arima_forecast: short series returns empty lists with the
error marker; otherwise per-metric forecasts are sampled at 10, 30, 60
and 120 minutes with static severity thresholds, a per-metric library
failure (oracle none) leaves that metric's list empty. -/
def batchArimaForecast (dataList : List Sample) (forecastHours : ℕ)
    (oracle : String → Option (ℕ → ℚ)) : BatchResult :=
  if dataList.length < MIN_SAMPLES_ARIMA then
    { cpu := [], memory := [], error := some "Not enough data",
      current_cpu := none, current_memory := none }
  else
    let cpuValues := dataList.map (fun d => d.cpuV.getD 0)
    let memoryValues := dataList.map (fun d => d.memoryV.getD 0)
    let horizon := forecastHours * 60 * 12
    let runMetric : String → List ℚ → List HorizonPoint := fun metricName _values =>
      match oracle metricName with
      | none => []
      | some forecasts =>
        ([10, 30, 60, 120] : List ℕ).map (fun m =>
          let idx := min (m * 12 - 1) (horizon - 1)
          let value := forecasts idx
          let warningThreshold : ℚ := if metricName = "cpu" then 80 else 85
          let criticalThreshold : ℚ := if metricName = "cpu" then 90 else 95
          { minutes := m, value := round2 value,
            severity :=
              if criticalThreshold ≤ value then "critical"
              else if warningThreshold ≤ value then "warning"
              else "normal" })
    { cpu := runMetric "cpu" cpuValues,
      memory := runMetric "memory" memoryValues,
      error := none,
      current_cpu := some (round2 (cpuValues.getLastD 0)),
      current_memory := some (round2 (memoryValues.getLastD 0)) }

/-- All six channels of a buffer have one common length, at most
WINDOW_SIZE. -/
def bufferInvariant (b : MetricBuffer) : Prop :=
  b.memory.length = b.cpu.length ∧ b.disk_io.length = b.cpu.length
  ∧ b.network_sent.length = b.cpu.length ∧ b.network_recv.length = b.cpu.length
  ∧ b.timestamps.length = b.cpu.length ∧ b.cpu.length ≤ WINDOW_SIZE

/-- A concrete sample from agent a with all metrics zero. -/
def sampleC7 : Sample :=
  { agentIdV := some "a", cpuV := some 0, memoryV := some 0, diskIOV := some 0 }

/-- A concrete buffer holding 19 zeros in every channel. -/
def bufC7 : MetricBuffer :=
  { cpu := List.replicate 19 0, memory := List.replicate 19 0,
    disk_io := List.replicate 19 0, network_sent := List.replicate 19 0,
    network_recv := List.replicate 19 0, timestamps := List.replicate 19 "" }

/-- A detector state in which agent a has 19 samples buffered, as after
19 detect calls. -/
def stC7 : DetectorState := { initState with buffers := upd initState.buffers "a" bufC7 }

/-- Library oracles for a cycle where ECOD flags the latest row as a
maximal outlier and ARIMA produces nothing. -/
def oraclesC7 : LibOracles :=
  { ecod := some { score := 1, normScore := 1, isOutlier := true, p95 := fun _ => 0 } }

/-! Helper lemmas shared by several claim theorems. -/

/-- The health clamp is bounded below by 0. -/
lemma computeHealth_nonneg (ds : List AnomalyResult) : 0 ≤ computeHealth ds :=
  le_max_left 0 _

/-- The health clamp is bounded above by 100. -/
lemma computeHealth_le_100 (ds : List AnomalyResult) : computeHealth ds ≤ 100 :=
  max_le (by norm_num) (min_le_left _ _)

/-- C6: for every detect call the orchestrator produces a
DetectionResult without rejecting the sample; an absent agent_id
defaults to "unknown", an absent timestamp to the empty string, and
absent metric fields default to 0 in the captured raw_metrics (the
buffer update uses the same defaults). -/
theorem c6_detect_total_defaults (st : DetectorState) (data : Sample)
    (o : LibOracles) (re ra : Bool) :
    (detect st data o re ra).2.agent_id = data.agentIdV.getD "unknown"
    ∧ (detect st data o re ra).2.timestamp = data.timestampV.getD ""
    ∧ (detect st data o re ra).2.raw_metrics = rawMetricsOf data
    ∧ (detect st ({} : Sample) o re ra).2.agent_id = "unknown"
    ∧ rawMetricsOf ({} : Sample) =
        [("CPU", 0), ("Memory", 0), ("DiskIO", 0),
         ("NetworkSent", 0), ("NetworkRecv", 0)] := by
  exact ⟨rfl, rfl, rfl, rfl, rfl⟩

/-- C2: for every detect call the health score is the clamp to the
0..100 range of 100 minus the per-finding deductions, where a CRITICAL
finding deducts int(20·confidence), a WARNING finding deducts
int(10·confidence), and a NORMAL finding deducts nothing; the final
health_score always lies in the 0..100 range. -/
theorem c2_health_score (st : DetectorState) (data : Sample)
    (o : LibOracles) (re ra : Bool) :
    (detect st data o re ra).2.health_score =
      computeHealth (detect st data o re ra).2.detections
    ∧ 0 ≤ (detect st data o re ra).2.health_score
    ∧ (detect st data o re ra).2.health_score ≤ 100
    ∧ (∀ d : AnomalyResult, d.severity = "critical" →
        healthDeduction d = pyInt (20 * d.confidence))
    ∧ (∀ d : AnomalyResult, d.severity = "warning" →
        healthDeduction d = pyInt (10 * d.confidence))
    ∧ (∀ d : AnomalyResult, d.severity = "normal" → healthDeduction d = 0) := by
  refine ⟨rfl, computeHealth_nonneg _, computeHealth_le_100 _, ?_, ?_, ?_⟩
  · intro d h
    simp [healthDeduction, h]
  · intro d h
    simp [healthDeduction, h]
  · intro d h
    simp [healthDeduction, h]

/-- Witness for C2 at a concrete call and finding. -/
theorem c2_health_score_witness :
    ({ engine := "ecod", metric := "CPU", value := 0 } : AnomalyResult).severity
      = "normal"
    ∧ healthDeduction { engine := "ecod", metric := "CPU", value := 0 } = 0
    ∧ 0 ≤ (detect initState ({} : Sample) ({} : LibOracles) true true).2.health_score :=
  ⟨rfl, (c2_health_score initState {} {} true true).2.2.2.2.2 _ rfl,
    (c2_health_score initState {} {} true true).2.1⟩

/-- Length of a deque append for a positive capacity. -/
lemma dequeAppendN_length {α : Type} (m : ℕ) (hm : 0 < m) (xs : List α) (x : α) :
    (dequeAppendN m xs x).length = min (xs.length + 1) m := by
  unfold dequeAppendN
  split <;> simp <;> omega

/-- Appending one sample to every channel preserves the buffer
invariant for every agent. -/
lemma updateBuffer_invariant (st : DetectorState) (agentId : String)
    (data : Sample) (a : String) (h : bufferInvariant (st.buffers a)) :
    bufferInvariant ((updateBuffer st agentId data).buffers a) := by
  unfold updateBuffer upd
  dsimp only
  split
  · next heq =>
    subst heq
    obtain ⟨h1, h2, h3, h4, h5, h6⟩ := h
    refine ⟨?_, ?_, ?_, ?_, ?_, ?_⟩ <;>
      simp [dequeAppendN_length 60 (by norm_num), h1, h2, h3, h4, h5, WINDOW_SIZE]
  · exact h

/-- The ECOD stage never touches the buffers. -/
lemma runMultivariateEcod_buffers (st : DetectorState) (a : String)
    (o : Option EcodOut) : (runMultivariateEcod st a o).1.buffers = st.buffers := by
  unfold runMultivariateEcod
  dsimp only
  split <;> first | rfl | (split <;> rfl)

/-- The ARIMA stage never touches the buffers. -/
lemma runCachedArima_buffers (st : DetectorState) (a m : String)
    (values : List ℚ) (oracle : Option (ℕ → ℚ)) (std : List ℚ → ℚ) :
    (runCachedArima st a m values oracle std).1.buffers = st.buffers := by
  unfold runCachedArima
  dsimp only
  split <;> first | rfl | (split <;> rfl)

/-- The peripheral stage never touches the buffers. -/
lemma checkPeripherals_buffers (st : DetectorState) (a : String) (data : Sample) :
    (checkPeripherals st a data).1.buffers = st.buffers := rfl

/-- The state after detectPre holds exactly the buffers of the update
step. -/
lemma detectPre_buffers (st : DetectorState) (data : Sample) (o : LibOracles)
    (re ra : Bool) :
    (detectPre st data o re ra).1.buffers =
      (updateBuffer st (data.agentIdV.getD "unknown") data).buffers := by
  cases re <;> cases ra <;>
    simp [detectPre, checkPeripherals_buffers, runCachedArima_buffers,
      runMultivariateEcod_buffers]

/-- One full detect call preserves the buffer invariant for every
agent. -/
lemma detect_buffer_invariant (st : DetectorState) (data : Sample)
    (o : LibOracles) (re ra : Bool) (a : String)
    (h : bufferInvariant (st.buffers a)) :
    bufferInvariant ((detect st data o re ra).1.buffers a) := by
  have : (detect st data o re ra).1.buffers =
      (updateBuffer st (data.agentIdV.getD "unknown") data).buffers :=
    detectPre_buffers st data o re ra
  rw [this]
  exact updateBuffer_invariant st _ data a h

/-- The buffer invariant holds along any stream of detect calls. -/
lemma runDetector_buffer_invariant
    (inputs : List (Sample × LibOracles × Bool × Bool)) (a : String) :
    bufferInvariant ((runDetector inputs).buffers a) := by
  suffices h : ∀ st : DetectorState, bufferInvariant (st.buffers a) →
      bufferInvariant ((inputs.foldl
        (fun st i => (detect st i.1 i.2.1 i.2.2.1 i.2.2.2).1) st).buffers a) by
    exact h initState ⟨rfl, rfl, rfl, rfl, rfl, Nat.zero_le _⟩
  induction inputs with
  | nil => intro st h; exact h
  | cons i rest ih =>
    intro st h
    exact ih _ (detect_buffer_invariant st i.1 i.2.1 i.2.2.1 i.2.2.2 a h)

/-- C3: after any sequence of detect calls all six rolling-buffer
channels of every agent have identical length, that length is at most
WINDOW_SIZE = 60, and an append to a channel at capacity drops the
eldest element. -/
theorem c3_rolling_buffers (inputs : List (Sample × LibOracles × Bool × Bool))
    (agent : String) :
    bufferInvariant ((runDetector inputs).buffers agent)
    ∧ ∀ (xs : List ℚ) (x : ℚ), xs.length = WINDOW_SIZE →
        dequeAppendN WINDOW_SIZE xs x = xs.tail ++ [x] := by
  refine ⟨runDetector_buffer_invariant inputs agent, ?_⟩
  intro xs x h
  unfold dequeAppendN
  rw [h]
  simp [WINDOW_SIZE, List.drop_one]

/-- Witness for C3 at a concrete full channel. -/
theorem c3_rolling_buffers_witness :
    (List.replicate 60 (0:ℚ)).length = WINDOW_SIZE
    ∧ dequeAppendN WINDOW_SIZE (List.replicate 60 (0:ℚ)) 5 =
        (List.replicate 60 (0:ℚ)).tail ++ [5] :=
  ⟨by simp [WINDOW_SIZE], (c3_rolling_buffers [] "a").2 _ 5 (by simp [WINDOW_SIZE])⟩

/-- C4: one step of the peripheral state machine: a connected status
zeroes the device's failure counter; a failed status increments it and
emits a finding exactly when the counter has reached 3, with severity
CRITICAL at 5 or more and WARNING below, score min(1, count/10),
threshold 3 and confidence 0.95; any other status leaves the counters
unchanged. -/
theorem c4_peripheral_monitor (s : PeripheralState) (d status : String) :
    ((periphEvent s d "연결").1.failure_counts d = 0)
    ∧ ((periphEvent s d "실패").1.failure_counts d = s.failure_counts d + 1)
    ∧ ((periphEvent s d "실패").2 =
        if PERIPHERAL_FAILURE_THRESHOLD ≤ s.failure_counts d + 1 then
          [mkPeripheralFinding d (s.failure_counts d + 1)]
        else [])
    ∧ (status ≠ "실패" → status ≠ "연결" →
        (periphEvent s d status).1.failure_counts = s.failure_counts)
    ∧ (∀ c : ℕ, (mkPeripheralFinding d c).score = min 1 ((c : ℚ) / 10)
        ∧ (mkPeripheralFinding d c).threshold = 3
        ∧ (mkPeripheralFinding d c).confidence = 95/100
        ∧ (mkPeripheralFinding d c).severity =
            (if 5 ≤ c then "critical" else "warning")) := by
  refine ⟨?_, ?_, ?_, ?_, ?_⟩
  · simp [periphEvent, upd]
  · simp only [periphEvent, upd]
    norm_num
    split <;> simp [upd]
  · simp only [periphEvent, upd]
    norm_num
    split <;> simp [upd]
  · intro h1 h2
    simp [periphEvent, h1, h2]
  · intro c
    refine ⟨rfl, ?_, rfl, ?_⟩
    · norm_num [mkPeripheralFinding, PERIPHERAL_FAILURE_THRESHOLD]
    · rfl

/-- Witness for C4 at a concrete device and statuses. -/
theorem c4_peripheral_monitor_witness :
    ("점검" : String) ≠ "실패" ∧ ("점검" : String) ≠ "연결"
    ∧ (periphEvent ({} : PeripheralState) "printer" "점검").1.failure_counts =
        ({} : PeripheralState).failure_counts
    ∧ (periphEvent ({} : PeripheralState) "printer" "연결").1.failure_counts
        "printer" = 0 :=
  ⟨by decide, by decide,
    (c4_peripheral_monitor {} "printer" "점검").2.2.2.1 (by decide) (by decide),
    (c4_peripheral_monitor {} "printer" "점검").1⟩

/-- C10: on the first FD invocation for an (agent, metric) pair that
passes the 30-sample guard and whose library calls succeed, the residual
is appended to the empty residual history before the threshold is
computed, so the history holds exactly one element, the threshold equals
twice the residual, the non-negative residual can exceed neither the
threshold nor 1.5 times it, and the finding's severity is NORMAL (the
empty-history default threshold 1 is never used). -/
theorem c10_first_fd_finding_normal (st : DetectorState) (a m : String)
    (values : List ℚ) (fc : ℕ → ℚ) (std : List ℚ → ℚ)
    (hlen : MIN_SAMPLES_ARIMA ≤ values.length)
    (hhist : st.arima_residuals a m = []) :
    (runCachedArima st a m values (some fc) std).2 =
      some (runCachedArimaCore st a m values fc std).2
    ∧ (runCachedArimaCore st a m values fc std).2.severity = "normal"
    ∧ (runCachedArimaCore st a m values fc std).2.residual =
        some |values.getLastD 0 - fc 0|
    ∧ (runCachedArimaCore st a m values fc std).2.threshold =
        2 * |values.getLastD 0 - fc 0|
    ∧ (runCachedArimaCore st a m values fc std).1.arima_residuals a m =
        [|values.getLastD 0 - fc 0|] := by
  have hnlt : ¬ (values.length < MIN_SAMPLES_ARIMA) := Nat.not_lt.mpr hlen
  set r := |values.getLastD 0 - fc 0| with hr
  have hr0 : 0 ≤ r := abs_nonneg _
  have hdeq : dequeAppendN WINDOW_SIZE (st.arima_residuals a m) r = [r] := by
    rw [hhist]; simp [dequeAppendN, WINDOW_SIZE]
  have hmean : meanQ [r] = r := by simp [meanQ]
  refine ⟨?_, ?_, ?_, ?_, ?_⟩
  · unfold runCachedArima
    rw [if_neg hnlt]
  · unfold runCachedArimaCore
    dsimp only
    rw [hdeq, hmean]
    simp only [List.length_singleton]
    norm_num
    have hg : |values.getLast?.getD 0 - fc 0| = r := by
      rw [hr, List.getLastD_eq_getLast?]
    rw [if_neg (by rw [hg]; linarith), if_neg (by rw [hg]; linarith)]
  · unfold runCachedArimaCore
    dsimp only
  · unfold runCachedArimaCore
    dsimp only
    rw [hdeq, hmean]
    simp only [List.length_singleton]
    norm_num
    ring
  · unfold runCachedArimaCore
    dsimp only
    rw [hdeq]
    simp [upd2, upd]

/-- Witness for C10 at a concrete first invocation. -/
theorem c10_first_fd_finding_normal_witness :
    MIN_SAMPLES_ARIMA ≤ (List.replicate 30 (0:ℚ)).length
    ∧ initState.arima_residuals "a" "CPU" = []
    ∧ (runCachedArimaCore initState "a" "CPU" (List.replicate 30 (0:ℚ))
        (fun _ => 0) (fun _ => 0)).2.severity = "normal" :=
  ⟨by simp [MIN_SAMPLES_ARIMA], rfl,
    (c10_first_fd_finding_normal initState "a" "CPU" (List.replicate 30 (0:ℚ))
      (fun _ => 0) (fun _ => 0) (by simp [MIN_SAMPLES_ARIMA]) rfl).2.1⟩

/-- C5: the caching policy of the FD stage.  A first invocation (no
cached model) decides to fit, and the core caches the model; but once a
model is cached a re-fit would require the series length to be a
multiple of 100, while the per-metric series handed to the FD stage is
the rolling buffer, whose length never exceeds WINDOW_SIZE = 60 along
any stream of detect calls, so the decision is false on every later
invocation: the 100th, 200th, ... calls never trigger re-selection. -/
theorem c5_arima_refit_never_fires :
    (∀ n : ℕ, needRetrain false n = true)
    ∧ (∀ n : ℕ, 0 < n → n ≤ WINDOW_SIZE → needRetrain true n = false)
    ∧ (∀ (st : DetectorState) (a m : String) (values : List ℚ) (fc : ℕ → ℚ)
        (std : List ℚ → ℚ),
        (runCachedArimaCore st a m values fc std).1.arimaHasModel a m = true)
    ∧ (∀ (inputs : List (Sample × LibOracles × Bool × Bool)) (agent : String),
        ((runDetector inputs).buffers agent).cpu.length ≤ WINDOW_SIZE
        ∧ ((runDetector inputs).buffers agent).memory.length ≤ WINDOW_SIZE) := by
  refine ⟨fun n => rfl, ?_, ?_, ?_⟩
  · intro n h1 h2
    simp only [needRetrain, WINDOW_SIZE] at *
    simp only [not_true, if_false]
    simp only [decide_eq_false_iff_not]
    omega
  · intro st a m values fc std
    simp [runCachedArimaCore, upd2, upd]
  · intro inputs agent
    obtain ⟨h1, h2, h3, h4, h5, h6⟩ := runDetector_buffer_invariant inputs agent
    exact ⟨h6, h1 ▸ h6⟩

/-- Witness for C5: with a cached model, the capped buffer length 60
seen on the 100th call does not trigger a re-fit, while a missing model
does trigger a fit. -/
theorem c5_arima_refit_never_fires_witness :
    0 < 60 ∧ 60 ≤ WINDOW_SIZE ∧ needRetrain true 60 = false
    ∧ needRetrain false 100 = true :=
  ⟨by decide, by decide, c5_arima_refit_never_fires.2.1 60 (by decide) (by decide),
    c5_arima_refit_never_fires.1 100⟩

/-- C8 counterexample: with 30 samples (enough data) and a failing
per-metric model, batch_arima_forecast returns the affected forecast
lists empty but adds no error marker to the returned dict. -/
theorem c8_failure_has_no_error_marker :
    (batchArimaForecast (List.replicate 30 ({} : Sample)) 2 (fun _ => none)).cpu = []
    ∧ (batchArimaForecast (List.replicate 30 ({} : Sample)) 2
        (fun _ => none)).memory = []
    ∧ (batchArimaForecast (List.replicate 30 ({} : Sample)) 2
        (fun _ => none)).error = none := by
  refine ⟨rfl, rfl, rfl⟩

/-- C8 amended: batch_arima_forecast never raises; a series shorter
than 30 points yields empty per-metric lists together with the error
marker, while a per-metric model failure on a long-enough series leaves
that metric's forecast list empty without adding an error marker. -/
theorem c8_batch_error_handling (dataList : List Sample) (hours : ℕ)
    (oracle : String → Option (ℕ → ℚ)) :
    (dataList.length < MIN_SAMPLES_ARIMA →
      batchArimaForecast dataList hours oracle =
        { cpu := [], memory := [], error := some "Not enough data",
          current_cpu := none, current_memory := none })
    ∧ (MIN_SAMPLES_ARIMA ≤ dataList.length → oracle "cpu" = none →
        (batchArimaForecast dataList hours oracle).cpu = []
        ∧ (batchArimaForecast dataList hours oracle).error = none)
    ∧ (MIN_SAMPLES_ARIMA ≤ dataList.length → oracle "memory" = none →
        (batchArimaForecast dataList hours oracle).memory = []
        ∧ (batchArimaForecast dataList hours oracle).error = none) := by
  refine ⟨?_, ?_, ?_⟩
  · intro h
    unfold batchArimaForecast
    rw [if_pos h]
  · intro h hcpu
    unfold batchArimaForecast
    rw [if_neg (Nat.not_lt.mpr h)]
    dsimp only
    rw [hcpu]
    exact ⟨rfl, rfl⟩
  · intro h hmem
    unfold batchArimaForecast
    rw [if_neg (Nat.not_lt.mpr h)]
    dsimp only
    rw [hmem]
    exact ⟨rfl, rfl⟩

/-- Witness for C8 at a concrete short series and a concrete failing
metric. -/
theorem c8_batch_error_handling_witness :
    (List.replicate 3 ({} : Sample)).length < MIN_SAMPLES_ARIMA
    ∧ batchArimaForecast (List.replicate 3 ({} : Sample)) 2 (fun _ => none) =
        { cpu := [], memory := [], error := some "Not enough data",
          current_cpu := none, current_memory := none }
    ∧ MIN_SAMPLES_ARIMA ≤ (List.replicate 31 ({} : Sample)).length
    ∧ (batchArimaForecast (List.replicate 31 ({} : Sample)) 2 (fun _ => none)).cpu
        = [] :=
  ⟨by simp [MIN_SAMPLES_ARIMA], (c8_batch_error_handling (List.replicate 3 {}) 2
      (fun _ => none)).1 (by simp [MIN_SAMPLES_ARIMA]),
    by simp [MIN_SAMPLES_ARIMA],
    ((c8_batch_error_handling (List.replicate 31 {}) 2 (fun _ => none)).2.1
      (by simp [MIN_SAMPLES_ARIMA]) rfl).1⟩

/-- The ecod score list is non-empty exactly when the ecod finding count
is positive. -/
lemma ecodScoresOf_ne_nil (ds : List AnomalyResult) :
    ecodScoresOf ds ≠ [] ↔ 0 < ds.countP (fun d => d.engine = "ecod") := by
  simp [ecodScoresOf]

/-- The arima score list is non-empty exactly when the arima finding
count is positive. -/
lemma arimaScoresOf_ne_nil (ds : List AnomalyResult) :
    arimaScoresOf ds ≠ [] ↔ 0 < ds.countP (fun d => d.engine = "arima") := by
  simp [arimaScoresOf]

/-- The appended ensemble finding does not change the ecod score list. -/
lemma ecodScoresOf_append_ensemble (ds : List AnomalyResult) (x : ℚ) (s : String) :
    ecodScoresOf (ds ++ [ensembleFinding x s]) = ecodScoresOf ds := by
  simp [ecodScoresOf, ensembleFinding]

/-- The appended ensemble finding does not change the arima score list. -/
lemma arimaScoresOf_append_ensemble (ds : List AnomalyResult) (x : ℚ) (s : String) :
    arimaScoresOf (ds ++ [ensembleFinding x s]) = arimaScoresOf ds := by
  simp [arimaScoresOf, ensembleFinding]

/-- Ensemble value when both engines reported. -/
lemma calcEnsembleScore_both (ds : List AnomalyResult)
    (h1 : ecodScoresOf ds ≠ []) (h2 : arimaScoresOf ds ≠ []) :
    (calcEnsembleScore ds).1 =
      ECOD_WEIGHT * meanQ (ecodScoresOf ds) + ARIMA_WEIGHT * meanQ (arimaScoresOf ds) := by
  simp [calcEnsembleScore, List.isEmpty_iff, h1, h2]

/-- Ensemble value when only ecod reported. -/
lemma calcEnsembleScore_ecod_only (ds : List AnomalyResult)
    (h1 : ecodScoresOf ds ≠ []) (h2 : arimaScoresOf ds = []) :
    (calcEnsembleScore ds).1 = meanQ (ecodScoresOf ds) := by
  simp [calcEnsembleScore, List.isEmpty_iff, h1, h2]

/-- Ensemble value when only arima reported. -/
lemma calcEnsembleScore_arima_only (ds : List AnomalyResult)
    (h1 : ecodScoresOf ds = []) (h2 : arimaScoresOf ds ≠ []) :
    (calcEnsembleScore ds).1 = meanQ (arimaScoresOf ds) := by
  simp [calcEnsembleScore, List.isEmpty_iff, h1, h2]

/-- Ensemble value when neither engine reported. -/
lemma calcEnsembleScore_neither (ds : List AnomalyResult)
    (h1 : ecodScoresOf ds = []) (h2 : arimaScoresOf ds = []) :
    (calcEnsembleScore ds).1 = 0 := by
  simp [calcEnsembleScore, List.isEmpty_iff, h1, h2]

/-- Unfolding of the findings list a detect call produces. -/
lemma detect_detections_eq (st : DetectorState) (data : Sample) (o : LibOracles)
    (re ra : Bool) :
    (detect st data o re ra).2.detections =
      (if 0 < ((detectPre st data o re ra).2.countP (fun d => d.engine = "ecod"))
          ∧ 0 < ((detectPre st data o re ra).2.countP (fun d => d.engine = "arima"))
       then (detectPre st data o re ra).2 ++
         [ensembleFinding (calcEnsembleScore (detectPre st data o re ra).2).1
           (calcEnsembleScore (detectPre st data o re ra).2).2]
       else (detectPre st data o re ra).2) := rfl

/-- Unfolding of the ensemble score a detect call reports. -/
lemma detect_ensemble_score_eq (st : DetectorState) (data : Sample) (o : LibOracles)
    (re ra : Bool) :
    (detect st data o re ra).2.ensemble_score =
      (calcEnsembleScore (detectPre st data o re ra).2).1 := rfl

/-- Every finding of the ECOD stage carries engine ecod. -/
lemma runMultivariateEcod_engines (st : DetectorState) (a : String)
    (o : Option EcodOut) (d : AnomalyResult)
    (hd : d ∈ (runMultivariateEcod st a o).2) : d.engine = "ecod" := by
  unfold runMultivariateEcod at hd
  dsimp only at hd
  split at hd
  · simp at hd
  · split at hd
    · simp at hd
    · rcases List.mem_cons.mp hd with h | h
      · rw [h]
      · simp only [List.mem_map, List.mem_cons] at h
        obtain ⟨p, _, hp⟩ := h
        rw [← hp]

/-- A finding of the ARIMA stage carries engine arima and its metric. -/
lemma runCachedArima_engine (st : DetectorState) (a m : String)
    (values : List ℚ) (oracle : Option (ℕ → ℚ)) (std : List ℚ → ℚ)
    (f : AnomalyResult) (hf : (runCachedArima st a m values oracle std).2 = some f) :
    f.engine = "arima" ∧ f.metric = m := by
  unfold runCachedArima at hf
  split at hf
  · simp at hf
  · split at hf
    · simp at hf
    · rw [Option.some_inj] at hf
      rw [← hf]
      exact ⟨rfl, rfl⟩

/-- Every finding of one peripheral event carries engine peripheral. -/
lemma periphEvent_engines (s : PeripheralState) (dev status : String)
    (d : AnomalyResult) (hd : d ∈ (periphEvent s dev status).2) :
    d.engine = "peripheral" := by
  unfold periphEvent at hd
  dsimp only at hd
  split at hd
  · split at hd
    · rcases List.mem_singleton.mp hd with h
      rw [h, mkPeripheralFinding]
    · simp at hd
  · split at hd
    · simp at hd
    · simp at hd

/-- Every finding of one log entry carries engine peripheral. -/
lemma processKeyValues_engines (s : PeripheralState) (kvs : List (String × String))
    (d : AnomalyResult) (hd : d ∈ (processKeyValues s kvs).2) :
    d.engine = "peripheral" := by
  suffices h : ∀ (s : PeripheralState) (acc : List AnomalyResult),
      d ∈ (kvs.foldl (fun acc kv =>
        let r := periphEvent acc.1 kv.1 kv.2
        (r.1, acc.2 ++ r.2)) (s, acc)).2 → d ∈ acc ∨ d.engine = "peripheral" by
    rcases h s [] hd with h' | h'
    · simp at h'
    · exact h'
  clear hd
  induction kvs with
  | nil => intro s acc h; exact Or.inl h
  | cons kv rest ih =>
    intro s acc h
    rw [List.foldl_cons] at h
    dsimp only at h
    rcases ih _ _ h with h' | h'
    · rcases List.mem_append.mp h' with h'' | h''
      · exact Or.inl h''
      · exact Or.inr (periphEvent_engines _ _ _ _ h'')
    · exact Or.inr h'

/-- Every finding of the peripheral monitor carries engine peripheral. -/
lemma processLogs_engines (s : PeripheralState) (logs : List LogEntry)
    (d : AnomalyResult) (hd : d ∈ (processLogs s logs).2) :
    d.engine = "peripheral" := by
  suffices h : ∀ (s : PeripheralState) (acc : List AnomalyResult),
      d ∈ (logs.foldl (fun acc le =>
        if le.bodyType = "주변장치 체크" then
          let r := processKeyValues acc.1 le.keyValues
          (r.1, acc.2 ++ r.2)
        else acc) (s, acc)).2 → d ∈ acc ∨ d.engine = "peripheral" by
    rcases h s [] hd with h' | h'
    · simp at h'
    · exact h'
  clear hd
  induction logs with
  | nil => intro s acc h; exact Or.inl h
  | cons le rest ih =>
    intro s acc h
    by_cases hb : le.bodyType = "주변장치 체크"
    · rw [List.foldl_cons] at h
      simp only [hb, if_true] at h
      rcases ih _ _ h with h' | h'
      · rcases List.mem_append.mp h' with h'' | h''
        · exact Or.inl h''
        · exact Or.inr (processKeyValues_engines _ _ _ h'')
      · exact Or.inr h'
    · rw [List.foldl_cons] at h
      simp only [hb, if_false] at h
      exact ih _ _ h

/-- Every finding before ensemble processing comes from one of the
three engines. -/
lemma detectPre_engines (st : DetectorState) (data : Sample) (o : LibOracles)
    (re ra : Bool) (d : AnomalyResult) (hd : d ∈ (detectPre st data o re ra).2) :
    d.engine = "ecod" ∨ d.engine = "arima" ∨ d.engine = "peripheral" := by
  unfold detectPre at hd
  dsimp only at hd
  rcases List.mem_append.mp hd with h | h
  · rcases List.mem_append.mp h with h' | h'
    · rcases re with _ | _
      · simp at h'
      · exact Or.inl (runMultivariateEcod_engines _ _ _ _ h')
    · rcases List.mem_append.mp h' with h'' | h''
      · rcases ra with _ | _
        · simp at h''
        · rcases Option.mem_toList.mp h'' with hsome
          exact Or.inr (Or.inl (runCachedArima_engine _ _ _ _ _ _ _ hsome).1)
      · rcases ra with _ | _
        · simp at h''
        · rcases Option.mem_toList.mp h'' with hsome
          exact Or.inr (Or.inl (runCachedArima_engine _ _ _ _ _ _ _ hsome).1)
  · exact Or.inr (Or.inr (processLogs_engines _ _ _ h))

/-- C1: for every detect call the ensemble score equals
0.6·E + 0.4·A when both ecod and arima findings are present (E, A the
means of score·confidence over the respective findings), equals the
single present component when only one is present, and 0 when neither
is; an ensemble finding is in the result exactly when at least one ecod
and one arima finding were produced, and its confidence is 0.9 when the
ensemble score exceeds 0.7 and 0.7 otherwise. -/
theorem c1_ensemble_scoring (st : DetectorState) (data : Sample) (o : LibOracles)
    (re ra : Bool) :
    (ecodScoresOf (detect st data o re ra).2.detections ≠ [] →
      arimaScoresOf (detect st data o re ra).2.detections ≠ [] →
      (detect st data o re ra).2.ensemble_score =
        ECOD_WEIGHT * meanQ (ecodScoresOf (detect st data o re ra).2.detections)
        + ARIMA_WEIGHT * meanQ (arimaScoresOf (detect st data o re ra).2.detections))
    ∧ (ecodScoresOf (detect st data o re ra).2.detections ≠ [] →
        arimaScoresOf (detect st data o re ra).2.detections = [] →
        (detect st data o re ra).2.ensemble_score =
          meanQ (ecodScoresOf (detect st data o re ra).2.detections))
    ∧ (ecodScoresOf (detect st data o re ra).2.detections = [] →
        arimaScoresOf (detect st data o re ra).2.detections ≠ [] →
        (detect st data o re ra).2.ensemble_score =
          meanQ (arimaScoresOf (detect st data o re ra).2.detections))
    ∧ (ecodScoresOf (detect st data o re ra).2.detections = [] →
        arimaScoresOf (detect st data o re ra).2.detections = [] →
        (detect st data o re ra).2.ensemble_score = 0)
    ∧ ((∃ d ∈ (detect st data o re ra).2.detections, d.engine = "ensemble") ↔
        (ecodScoresOf (detect st data o re ra).2.detections ≠ []
          ∧ arimaScoresOf (detect st data o re ra).2.detections ≠ []))
    ∧ (∀ d ∈ (detect st data o re ra).2.detections, d.engine = "ensemble" →
        d.confidence =
          if 7/10 < (detect st data o re ra).2.ensemble_score then 9/10
          else 7/10) := by
  have hdets := detect_detections_eq st data o re ra
  have hscore := detect_ensemble_score_eq st data o re ra
  set pre := (detectPre st data o re ra).2 with hpre
  have hpreeng : ∀ d ∈ pre, d.engine ≠ "ensemble" := by
    intro d hd
    rcases detectPre_engines st data o re ra d hd with h | h | h <;> simp [h]
  have hE : ecodScoresOf (detect st data o re ra).2.detections = ecodScoresOf pre := by
    rw [hdets]
    by_cases hg : 0 < pre.countP (fun d => d.engine = "ecod")
        ∧ 0 < pre.countP (fun d => d.engine = "arima")
    · rw [if_pos hg, ecodScoresOf_append_ensemble]
    · rw [if_neg hg]
  have hA : arimaScoresOf (detect st data o re ra).2.detections = arimaScoresOf pre := by
    rw [hdets]
    by_cases hg : 0 < pre.countP (fun d => d.engine = "ecod")
        ∧ 0 < pre.countP (fun d => d.engine = "arima")
    · rw [if_pos hg, arimaScoresOf_append_ensemble]
    · rw [if_neg hg]
  refine ⟨?_, ?_, ?_, ?_, ?_, ?_⟩
  · intro h1 h2
    rw [hE] at h1 ⊢
    rw [hA] at h2 ⊢
    rw [hscore]
    exact calcEnsembleScore_both pre h1 h2
  · intro h1 h2
    rw [hE] at h1 ⊢
    rw [hA] at h2
    rw [hscore]
    exact calcEnsembleScore_ecod_only pre h1 h2
  · intro h1 h2
    rw [hE] at h1
    rw [hA] at h2 ⊢
    rw [hscore]
    exact calcEnsembleScore_arima_only pre h1 h2
  · intro h1 h2
    rw [hE] at h1
    rw [hA] at h2
    rw [hscore]
    exact calcEnsembleScore_neither pre h1 h2
  · rw [hE, hA]
    constructor
    · rintro ⟨d, hd, hde⟩
      rw [hdets] at hd
      by_cases hg : 0 < pre.countP (fun d => d.engine = "ecod")
          ∧ 0 < pre.countP (fun d => d.engine = "arima")
      · exact ⟨(ecodScoresOf_ne_nil pre).mpr hg.1, (arimaScoresOf_ne_nil pre).mpr hg.2⟩
      · rw [if_neg hg] at hd
        exact absurd hde (hpreeng d hd)
    · rintro ⟨h1, h2⟩
      have hg : 0 < pre.countP (fun d => d.engine = "ecod")
          ∧ 0 < pre.countP (fun d => d.engine = "arima") :=
        ⟨(ecodScoresOf_ne_nil pre).mp h1, (arimaScoresOf_ne_nil pre).mp h2⟩
      refine ⟨ensembleFinding (calcEnsembleScore pre).1 (calcEnsembleScore pre).2, ?_, rfl⟩
      rw [hdets, if_pos hg]
      exact List.mem_append_right _ (List.mem_singleton_self _)
  · intro d hd hde
    rw [hdets] at hd
    by_cases hg : 0 < pre.countP (fun d => d.engine = "ecod")
        ∧ 0 < pre.countP (fun d => d.engine = "arima")
    · rw [if_pos hg] at hd
      rcases List.mem_append.mp hd with h | h
      · exact absurd hde (hpreeng d h)
      · rw [List.mem_singleton.mp h, hscore]
        rfl
    · rw [if_neg hg] at hd
      exact absurd hde (hpreeng d hd)

/-- Witness for C1 at a concrete call where neither engine reported. -/
theorem c1_ensemble_scoring_witness :
    ecodScoresOf (detect initState ({} : Sample) ({} : LibOracles) true
      true).2.detections = []
    ∧ arimaScoresOf (detect initState ({} : Sample) ({} : LibOracles) true
        true).2.detections = []
    ∧ (detect initState ({} : Sample) ({} : LibOracles) true
        true).2.ensemble_score = 0 :=
  ⟨rfl, rfl,
    (c1_ensemble_scoring initState {} {} true true).2.2.2.1 rfl rfl⟩

/-- C7 counterexample: a concrete detect call in which DD produced
findings and FD produced none, yet the reported ensemble_score is
153/200, not 0: when exactly one engine reports, the code returns that
component's mean rather than 0. -/
theorem c7_counterexample_single_engine :
    (detect stC7 sampleC7 oraclesC7 true true).2.detections.countP
        (fun d => d.engine = "arima") = 0
    ∧ 0 < (detect stC7 sampleC7 oraclesC7 true true).2.detections.countP
        (fun d => d.engine = "ecod")
    ∧ (detect stC7 sampleC7 oraclesC7 true true).2.ensemble_score = 153/200
    ∧ (detect stC7 sampleC7 oraclesC7 true true).2.ensemble_score ≠ 0 := by
  with_unfolding_all decide

/-- C7 amended: the ensemble_score is 0 when neither DD nor FD produced
findings this cycle; when exactly one of them produced findings the
ensemble_score equals that component's mean of score·confidence (in
general nonzero), not 0. -/
theorem c7_ensemble_silent_engines (st : DetectorState) (data : Sample)
    (o : LibOracles) (re ra : Bool) :
    ((detect st data o re ra).2.detections.countP (fun d => d.engine = "ecod") = 0 →
      (detect st data o re ra).2.detections.countP (fun d => d.engine = "arima") = 0 →
      (detect st data o re ra).2.ensemble_score = 0)
    ∧ (0 < (detect st data o re ra).2.detections.countP (fun d => d.engine = "ecod") →
        (detect st data o re ra).2.detections.countP (fun d => d.engine = "arima") = 0 →
        (detect st data o re ra).2.ensemble_score =
          meanQ (ecodScoresOf (detect st data o re ra).2.detections))
    ∧ ((detect st data o re ra).2.detections.countP (fun d => d.engine = "ecod") = 0 →
        0 < (detect st data o re ra).2.detections.countP (fun d => d.engine = "arima") →
        (detect st data o re ra).2.ensemble_score =
          meanQ (arimaScoresOf (detect st data o re ra).2.detections)) := by
  have hscore := detect_ensemble_score_eq st data o re ra
  have hdets := detect_detections_eq st data o re ra
  set pre := (detectPre st data o re ra).2 with hpre
  have hE : ecodScoresOf (detect st data o re ra).2.detections = ecodScoresOf pre := by
    rw [hdets]
    by_cases hg : 0 < pre.countP (fun d => d.engine = "ecod")
        ∧ 0 < pre.countP (fun d => d.engine = "arima")
    · rw [if_pos hg, ecodScoresOf_append_ensemble]
    · rw [if_neg hg]
  have hA : arimaScoresOf (detect st data o re ra).2.detections = arimaScoresOf pre := by
    rw [hdets]
    by_cases hg : 0 < pre.countP (fun d => d.engine = "ecod")
        ∧ 0 < pre.countP (fun d => d.engine = "arima")
    · rw [if_pos hg, arimaScoresOf_append_ensemble]
    · rw [if_neg hg]
  refine ⟨?_, ?_, ?_⟩
  · intro h1 h2
    have he : ecodScoresOf (detect st data o re ra).2.detections = [] := by
      by_contra hne
      have := (ecodScoresOf_ne_nil _).mp hne
      omega
    have ha : arimaScoresOf (detect st data o re ra).2.detections = [] := by
      by_contra hne
      have := (arimaScoresOf_ne_nil _).mp hne
      omega
    rw [hE] at he
    rw [hA] at ha
    rw [hscore]
    exact calcEnsembleScore_neither pre he ha
  · intro h1 h2
    have he : ecodScoresOf (detect st data o re ra).2.detections ≠ [] :=
      (ecodScoresOf_ne_nil _).mpr h1
    have ha : arimaScoresOf (detect st data o re ra).2.detections = [] := by
      by_contra hne
      have := (arimaScoresOf_ne_nil _).mp hne
      omega
    rw [hE] at he ⊢
    rw [hA] at ha
    rw [hscore]
    exact calcEnsembleScore_ecod_only pre he ha
  · intro h1 h2
    have he : ecodScoresOf (detect st data o re ra).2.detections = [] := by
      by_contra hne
      have := (ecodScoresOf_ne_nil _).mp hne
      omega
    have ha : arimaScoresOf (detect st data o re ra).2.detections ≠ [] :=
      (arimaScoresOf_ne_nil _).mpr h2
    rw [hE] at he
    rw [hA] at ha ⊢
    rw [hscore]
    exact calcEnsembleScore_arima_only pre he ha

/-- Witness for C7 at the concrete single-engine call. -/
theorem c7_ensemble_silent_engines_witness :
    0 < (detect stC7 sampleC7 oraclesC7 true true).2.detections.countP
        (fun d => d.engine = "ecod")
    ∧ (detect stC7 sampleC7 oraclesC7 true true).2.detections.countP
        (fun d => d.engine = "arima") = 0
    ∧ (detect stC7 sampleC7 oraclesC7 true true).2.ensemble_score =
        meanQ (ecodScoresOf (detect stC7 sampleC7 oraclesC7 true true).2.detections) :=
  ⟨by with_unfolding_all decide, by with_unfolding_all decide,
    (c7_ensemble_silent_engines stC7 sampleC7 oraclesC7 true true).2.1
      (by with_unfolding_all decide) (by with_unfolding_all decide)⟩

/-- The mapped output of the ECOD stage is either empty or the
multivariate finding followed by the CPU, Memory, DiskIO breakdowns. -/
lemma runMultivariateEcod_shape (st : DetectorState) (a : String)
    (o : Option EcodOut) :
    (runMultivariateEcod st a o).2.map (fun d => (d.engine, d.metric)) = []
    ∨ (runMultivariateEcod st a o).2.map (fun d => (d.engine, d.metric)) =
        [("ecod", "Multivariate"), ("ecod", "CPU"), ("ecod", "Memory"),
          ("ecod", "DiskIO")] := by
  unfold runMultivariateEcod
  dsimp only
  split
  · exact Or.inl rfl
  · split
    · exact Or.inl rfl
    · exact Or.inr rfl

/-- The mapped output of the ARIMA stage is empty or one finding for
its metric. -/
lemma runCachedArima_shape (st : DetectorState) (a m : String)
    (values : List ℚ) (oracle : Option (ℕ → ℚ)) (std : List ℚ → ℚ) :
    (runCachedArima st a m values oracle std).2.toList.map
        (fun d => (d.engine, d.metric)) = []
    ∨ (runCachedArima st a m values oracle std).2.toList.map
        (fun d => (d.engine, d.metric)) = [("arima", m)] := by
  unfold runCachedArima
  split
  · exact Or.inl rfl
  · split
    · exact Or.inl rfl
    · exact Or.inr rfl

/-- The peripheral fold only appends to its accumulator. -/
lemma processLogs_acc (logs : List LogEntry)
    (p : PeripheralState × List AnomalyResult) :
    logs.foldl (fun acc le =>
      if le.bodyType = "주변장치 체크" then
        let r := processKeyValues acc.1 le.keyValues
        (r.1, acc.2 ++ r.2)
      else acc) p
    = ((processLogs p.1 logs).1, p.2 ++ (processLogs p.1 logs).2) := by
  induction logs generalizing p with
  | nil => simp [processLogs]
  | cons le rest ih =>
    rw [List.foldl_cons]
    by_cases hb : le.bodyType = "주변장치 체크"
    · simp only [hb, if_true]
      rw [ih]
      conv_rhs => rw [processLogs, List.foldl_cons]
      simp only [hb, if_true]
      rw [ih]
      simp [List.append_assoc, processLogs]
    · simp only [hb, if_false]
      rw [ih]
      conv_rhs => rw [processLogs, List.foldl_cons]
      simp only [hb, if_false]
      rw [ih]
      simp [processLogs]

/-- The peripheral monitor emits findings in input log order: the
output over concatenated logs is the concatenation of the outputs. -/
lemma processLogs_append (s : PeripheralState) (l1 l2 : List LogEntry) :
    processLogs s (l1 ++ l2) =
      ((processLogs (processLogs s l1).1 l2).1,
        (processLogs s l1).2 ++ (processLogs (processLogs s l1).1 l2).2) := by
  rw [processLogs, List.foldl_append]
  rw [show (List.foldl (fun acc le =>
      if le.bodyType = "주변장치 체크" then
        let r := processKeyValues acc.1 le.keyValues
        (r.1, acc.2 ++ r.2)
      else acc) (s, []) l1) = processLogs s l1 from rfl]
  rw [processLogs_acc l2 (processLogs s l1)]

/-- Combining the two possible ARIMA outputs in CPU, Memory order. -/
lemma arima_pair_shape (x y : List AnomalyResult)
    (f : AnomalyResult → String × String)
    (hx : x.map f = [] ∨ x.map f = [("arima", "CPU")])
    (hy : y.map f = [] ∨ y.map f = [("arima", "Memory")]) :
    (x ++ y).map f = [] ∨ (x ++ y).map f = [("arima", "CPU")]
    ∨ (x ++ y).map f = [("arima", "Memory")]
    ∨ (x ++ y).map f = [("arima", "CPU"), ("arima", "Memory")] := by
  rw [List.map_append]
  rcases hx with h1 | h1 <;> rcases hy with h2 | h2 <;> simp [h1, h2]

/-- The findings before ensemble processing decompose into the DD
block, the FD block and the peripheral block, in that order, with the
documented internal orders. -/
lemma detectPre_decomp (st : DetectorState) (data : Sample) (o : LibOracles)
    (re ra : Bool) :
    ∃ dd fd pm : List AnomalyResult,
      (detectPre st data o re ra).2 = dd ++ fd ++ pm
      ∧ (dd.map (fun d => (d.engine, d.metric)) = []
          ∨ dd.map (fun d => (d.engine, d.metric)) =
              [("ecod", "Multivariate"), ("ecod", "CPU"), ("ecod", "Memory"),
                ("ecod", "DiskIO")])
      ∧ (fd.map (fun d => (d.engine, d.metric)) = []
          ∨ fd.map (fun d => (d.engine, d.metric)) = [("arima", "CPU")]
          ∨ fd.map (fun d => (d.engine, d.metric)) = [("arima", "Memory")]
          ∨ fd.map (fun d => (d.engine, d.metric)) =
              [("arima", "CPU"), ("arima", "Memory")])
      ∧ (∀ d ∈ pm, d.engine = "peripheral") := by
  unfold detectPre
  dsimp only
  refine ⟨_, _, _, rfl, ?_, ?_, ?_⟩
  · rcases re with _ | _
    · exact Or.inl rfl
    · simpa using runMultivariateEcod_shape
        (updateBuffer st (data.agentIdV.getD "unknown") data)
        (data.agentIdV.getD "unknown") o.ecod
  · rcases ra with _ | _
    · exact Or.inl rfl
    · exact arima_pair_shape _ _ _ (runCachedArima_shape _ _ _ _ _ _)
        (runCachedArima_shape _ _ _ _ _ _)
  · intro d hd
    exact processLogs_engines _ _ _ hd

/-- C9: the findings list of every detect call is the DD block (the
multivariate finding then the CPU, Memory, DiskIO breakdowns), then the
FD findings in CPU, Memory order, then the peripheral findings in input
log order (the peripheral output over concatenated logs is the
concatenation of the outputs), and the ensemble finding last. -/
theorem c9_findings_order (st : DetectorState) (data : Sample) (o : LibOracles)
    (re ra : Bool) :
    (∃ dd fd pm en : List AnomalyResult,
      (detect st data o re ra).2.detections = dd ++ fd ++ pm ++ en
      ∧ (dd.map (fun d => (d.engine, d.metric)) = []
          ∨ dd.map (fun d => (d.engine, d.metric)) =
              [("ecod", "Multivariate"), ("ecod", "CPU"), ("ecod", "Memory"),
                ("ecod", "DiskIO")])
      ∧ (fd.map (fun d => (d.engine, d.metric)) = []
          ∨ fd.map (fun d => (d.engine, d.metric)) = [("arima", "CPU")]
          ∨ fd.map (fun d => (d.engine, d.metric)) = [("arima", "Memory")]
          ∨ fd.map (fun d => (d.engine, d.metric)) =
              [("arima", "CPU"), ("arima", "Memory")])
      ∧ (∀ d ∈ pm, d.engine = "peripheral")
      ∧ (en.map (fun d => (d.engine, d.metric)) = []
          ∨ en.map (fun d => (d.engine, d.metric)) = [("ensemble", "Combined")]))
    ∧ (∀ (s : PeripheralState) (l1 l2 : List LogEntry),
        processLogs s (l1 ++ l2) =
          ((processLogs (processLogs s l1).1 l2).1,
            (processLogs s l1).2 ++ (processLogs (processLogs s l1).1 l2).2)) := by
  constructor
  · obtain ⟨dd, fd, pm, hsplit, hdd, hfd, hpm⟩ := detectPre_decomp st data o re ra
    have hdets := detect_detections_eq st data o re ra
    by_cases hg : 0 < (detectPre st data o re ra).2.countP (fun d => d.engine = "ecod")
        ∧ 0 < (detectPre st data o re ra).2.countP (fun d => d.engine = "arima")
    · refine ⟨dd, fd, pm,
        [ensembleFinding (calcEnsembleScore (detectPre st data o re ra).2).1
          (calcEnsembleScore (detectPre st data o re ra).2).2],
        ?_, hdd, hfd, hpm, Or.inr rfl⟩
      rw [hdets, if_pos hg, hsplit]
    · refine ⟨dd, fd, pm, [], ?_, hdd, hfd, hpm, Or.inl rfl⟩
      rw [hdets, if_neg hg, hsplit]
      simp
  · exact processLogs_append

/-- Witness for C9: the log-order conjunct at two concrete log
entries. -/
theorem c9_findings_order_witness :
    processLogs ({} : PeripheralState)
        ([{ bodyType := "주변장치 체크", keyValues := [("printer", "실패")] }] ++
          [{ bodyType := "주변장치 체크", keyValues := [("printer", "실패")] }]) =
      ((processLogs (processLogs ({} : PeripheralState)
          [{ bodyType := "주변장치 체크", keyValues := [("printer", "실패")] }]).1
          [{ bodyType := "주변장치 체크", keyValues := [("printer", "실패")] }]).1,
        (processLogs ({} : PeripheralState)
          [{ bodyType := "주변장치 체크", keyValues := [("printer", "실패")] }]).2 ++
        (processLogs (processLogs ({} : PeripheralState)
          [{ bodyType := "주변장치 체크", keyValues := [("printer", "실패")] }]).1
          [{ bodyType := "주변장치 체크", keyValues := [("printer", "실패")] }]).2) :=
  (c9_findings_order initState {} {} true true).2 {}
    [{ bodyType := "주변장치 체크", keyValues := [("printer", "실패")] }]
    [{ bodyType := "주변장치 체크", keyValues := [("printer", "실패")] }]
